import Mathlib

set_option maxRecDepth 4096

/-
Verification of the AIMS/ANMN NRS real-time incremental channel-harvesting
pipeline (src/ANMN/NRS_AIMS/REALTIME/anmn_nrs_aims.py) against its
natural-language specification.

The embedding models the control flow of the pipeline:
  * the per-chunk body of the download loop in `process_monthly_channel`
    (download, no-data check, validation gates, transformer, compliance
    check, filename regex check, publish, watermark save), recording the
    sequence of stages executed as a trace;
  * the chunk loop with its `break`-on-failure semantics and the persisted
    per-channel watermark (`save_channel_info`);
  * the channel loop of `process_qc_level` with its bare-except channel
    boundary, and the fatal `exit(1)` on catalog (RSS feed) failure;
  * the `__main__` driver: data-validation self-test, incoming-directory
    backlog check, then the two qc-levels.
External collaborators (netCDF inspection routines, the compliance checker,
the AIMS web service) are abstracted as boolean outcomes in the chunk
environment, since only their results steer the pipeline's control flow.
-/

namespace AnmnNrsAims

/-- One stage of the per-chunk pipeline in `process_monthly_channel`,
in the source's own vocabulary:
`download` = `download_channel`; `checkNoDataFound` = `is_no_data_found`;
`checkTimeVarEmpty` = `is_time_var_empty` (gate: non-empty time series);
`transform` = `modify_anmn_nrs_netcdf` (the Transformer);
`checkFillValue` = `has_var_only_fill_value` on the main variable;
`checkSiteName` = `get_anmn_nrs_site_name` recognition;
`checkTimeMonotonic` = `is_time_monotonic`;
`checkCompliance` = `pass_netcdf_checker` (cf:latest, imos:1.3);
`fixFilenames` = `fix_data_code_from_filename` plus
`fix_provider_code_from_filename`; `checkRegex` = the
`IMOS_ANMN_[A-Z]\x7b1\x7d_` filename search; `publish` = `move_to_incoming`;
`saveChannelInfo` = `save_channel_info` (watermark persistence). -/
inductive Step where
  | download
  | checkNoDataFound
  | checkTimeVarEmpty
  | transform
  | checkFillValue
  | checkSiteName
  | checkTimeMonotonic
  | checkCompliance
  | fixFilenames
  | checkRegex
  | publish
  | saveChannelInfo
  deriving DecidableEq

/-- How one chunk iteration ends: `advanced` means the loop body reached
`save_channel_info` and the `for` loop continues with the next chunk;
`channelAborted` means a `break` fired (remaining chunks skipped);
`exceptionRaised` means an exception escaped the loop body (the
`shutil.move` in `move_to_incoming` failing), unwinding out of
`process_monthly_channel` to the caller's bare `except`. -/
inductive ChunkOutcome where
  | advanced
  | channelAborted
  | exceptionRaised
  deriving DecidableEq

/-- Observable result of one chunk iteration: the ordered trace of stages
executed, the loop outcome, and whether the artifact was copied into the
`errors` directory (`shutil.copy(netcdf_tmp_file_path, wip_path/errors)`). -/
structure ChunkResult where
  trace : List Step
  outcome : ChunkOutcome
  copiedToErrors : Bool
  deriving DecidableEq

/-- Environment for one chunk: the boolean outcome of each external call the
loop body makes, in source order. `download_ok` is false when
`download_channel` returns `None` (not a valid zip); `no_data_found` is
`is_no_data_found`; `time_var_empty` is `is_time_var_empty`; `modify_ok` is
the return of `modify_anmn_nrs_netcdf`; `only_fill_value` is
`has_var_only_fill_value`; `site_name_empty` is whether
`get_anmn_nrs_site_name` returns the empty list; `time_monotonic` is
`is_time_monotonic`; `checker_pass` is `pass_netcdf_checker`; `regex_pass`
is whether the fixed filename matches `IMOS_ANMN_[A-Z]\x7b1\x7d_`; `move_ok`
is whether `shutil.move` in `move_to_incoming` succeeds. -/
structure ChunkEnv where
  download_ok : Bool
  no_data_found : Bool
  time_var_empty : Bool
  modify_ok : Bool
  only_fill_value : Bool
  site_name_empty : Bool
  time_monotonic : Bool
  checker_pass : Bool
  regex_pass : Bool
  move_ok : Bool
  deriving DecidableEq

/-- A chunk environment is just a 10-tuple of booleans. -/
def chunkEnvEquiv :
    ChunkEnv ≃ Bool × Bool × Bool × Bool × Bool × Bool × Bool × Bool × Bool × Bool where
  toFun e := (e.download_ok, e.no_data_found, e.time_var_empty, e.modify_ok,
    e.only_fill_value, e.site_name_empty, e.time_monotonic, e.checker_pass,
    e.regex_pass, e.move_ok)
  invFun p := ⟨p.1, p.2.1, p.2.2.1, p.2.2.2.1, p.2.2.2.2.1, p.2.2.2.2.2.1,
    p.2.2.2.2.2.2.1, p.2.2.2.2.2.2.2.1, p.2.2.2.2.2.2.2.2.1, p.2.2.2.2.2.2.2.2.2⟩
  left_inv e := by cases e; rfl
  right_inv p := rfl

instance : Fintype ChunkEnv := Fintype.ofEquiv _ chunkEnvEquiv.symm

/-- The body of the per-chunk `for` loop of `process_monthly_channel`
(anmn_nrs_aims.py lines 149-216), stage by stage in source order:
`download_channel` returning `None` logs and breaks; `is_no_data_found`
logs, removes the temp dir and falls through to `save_channel_info`;
otherwise `is_time_var_empty` breaks, then `modify_anmn_nrs_netcdf`
failure breaks, then `has_var_only_fill_value` breaks, then an empty
`get_anmn_nrs_site_name` breaks, then a non-monotonic TIME breaks, then a
`pass_netcdf_checker` failure copies the file to the errors dir and
breaks, then after the two filename fixes a failed
`IMOS_ANMN_[A-Z]\x7b1\x7d_` search copies to errors and breaks, then
`move_to_incoming` runs (its `shutil.move` raising escapes the function),
and finally `save_channel_info` persists the chunk's end date. -/
def process_monthly_chunk (e : ChunkEnv) : ChunkResult :=
  if !e.download_ok then
    ⟨[.download], .channelAborted, false⟩
  else if e.no_data_found then
    ⟨[.download, .checkNoDataFound, .saveChannelInfo], .advanced, false⟩
  else if e.time_var_empty then
    ⟨[.download, .checkNoDataFound, .checkTimeVarEmpty], .channelAborted, false⟩
  else if !e.modify_ok then
    ⟨[.download, .checkNoDataFound, .checkTimeVarEmpty, .transform], .channelAborted, false⟩
  else if e.only_fill_value then
    ⟨[.download, .checkNoDataFound, .checkTimeVarEmpty, .transform, .checkFillValue],
      .channelAborted, false⟩
  else if e.site_name_empty then
    ⟨[.download, .checkNoDataFound, .checkTimeVarEmpty, .transform, .checkFillValue,
      .checkSiteName], .channelAborted, false⟩
  else if !e.time_monotonic then
    ⟨[.download, .checkNoDataFound, .checkTimeVarEmpty, .transform, .checkFillValue,
      .checkSiteName, .checkTimeMonotonic], .channelAborted, false⟩
  else if !e.checker_pass then
    ⟨[.download, .checkNoDataFound, .checkTimeVarEmpty, .transform, .checkFillValue,
      .checkSiteName, .checkTimeMonotonic, .checkCompliance], .channelAborted, true⟩
  else if !e.regex_pass then
    ⟨[.download, .checkNoDataFound, .checkTimeVarEmpty, .transform, .checkFillValue,
      .checkSiteName, .checkTimeMonotonic, .checkCompliance, .fixFilenames, .checkRegex],
      .channelAborted, true⟩
  else if !e.move_ok then
    ⟨[.download, .checkNoDataFound, .checkTimeVarEmpty, .transform, .checkFillValue,
      .checkSiteName, .checkTimeMonotonic, .checkCompliance, .fixFilenames, .checkRegex,
      .publish], .exceptionRaised, false⟩
  else
    ⟨[.download, .checkNoDataFound, .checkTimeVarEmpty, .transform, .checkFillValue,
      .checkSiteName, .checkTimeMonotonic, .checkCompliance, .fixFilenames, .checkRegex,
      .publish, .saveChannelInfo], .advanced, false⟩

/-- The full stage order of a completely successful chunk iteration; every
other iteration's trace is a prefix of this list, except the no-data case
which jumps from the no-data check straight to the watermark save. -/
def stageOrder : List Step :=
  [.download, .checkNoDataFound, .checkTimeVarEmpty, .transform, .checkFillValue,
   .checkSiteName, .checkTimeMonotonic, .checkCompliance, .fixFilenames, .checkRegex,
   .publish, .saveChannelInfo]

/-- Modelled from the spec: `save_channel_info` lives in `aims_realtime_util`,
which is not among the provided sources; only its call sites are. Per the
spec's ProgressStore contract it is the `advance` operation of the persisted
(channel, qc-level) watermark: update-or-create of the stored
`covered_through` timestamp, monotonic in the sense that advancing with a
timestamp earlier than the stored value is a no-op (never regress).
Timestamps are modelled as naturals; `none` means no watermark exists yet
for the channel. -/
def save_channel_info (stored : Option Nat) (end_date : Nat) : Nat :=
  match stored with
  | none => end_date
  | some w => max w end_date

/-- The chunk `for` loop of `process_monthly_channel`: each list element is
the chunk's environment paired with its end date (the `end_date` passed to
`save_channel_info`). Returns the watermark as persisted when the loop
stops, and the results of the chunk iterations actually attempted. An
`advanced` outcome persists the chunk's end date and continues; a
`channelAborted` outcome (`break`) and an escaping exception both stop the
loop with the watermark as last persisted. -/
def chunkLoop : List (ChunkEnv × Nat) → Option Nat → Option Nat × List ChunkResult
  | [], wm => (wm, [])
  | (e, end_date) :: rest, wm =>
    match (process_monthly_chunk e).outcome with
    | .advanced =>
      ((chunkLoop rest (some (save_channel_info wm end_date))).1,
       process_monthly_chunk e :: (chunkLoop rest (some (save_channel_info wm end_date))).2)
    | .channelAborted => (wm, [process_monthly_chunk e])
    | .exceptionRaised => (wm, [process_monthly_chunk e])

/-- Environment for one channel in one run: its planned chunks (from
`create_list_of_dates_to_download`) with their end dates, the stored
watermark at the start of the run, and whether some unclassified fault
(e.g. `get_channel_info` failing) raises an exception while the channel is
processed. -/
structure ChannelEnv where
  chunks : List (ChunkEnv × Nat)
  stored_wm : Option Nat
  unexpected_fault : Bool
  deriving DecidableEq

/-- Result of `process_monthly_channel` for one channel: the persisted
watermark after the run and the per-chunk results. -/
structure ChannelResult where
  wm : Option Nat
  chunkReports : List ChunkResult
  deriving DecidableEq

/-- `process_monthly_channel` (anmn_nrs_aims.py lines 130-221): plans the
chunks and runs the chunk loop against the stored watermark. -/
def process_monthly_channel (ch : ChannelEnv) : ChannelResult :=
  ⟨(chunkLoop ch.chunks ch.stored_wm).1, (chunkLoop ch.chunks ch.stored_wm).2⟩

/-- Whether processing this channel lets an exception escape
`process_monthly_channel`: either an unclassified fault, or a chunk whose
publish step (`shutil.move` in `move_to_incoming`) raised. -/
def channelRaises (ch : ChannelEnv) : Bool :=
  ch.unexpected_fault ||
    (process_monthly_channel ch).chunkReports.any
      (fun r => match r.outcome with | .exceptionRaised => true | _ => false)

/-- What the channel loop of `process_qc_level` records for one channel:
either the channel's processing completed (possibly after an internal
`break`), or an exception was caught by the bare `except` and the
`Failed, unknown reason - manual debug required` message was logged. -/
inductive ChannelReport where
  | completed (r : ChannelResult)
  | unknownFailureLogged
  deriving DecidableEq

/-- The per-channel boundary inside the channel loop of `process_qc_level`
(anmn_nrs_aims.py lines 237-241): `process_monthly_channel` wrapped in a
bare `try`/`except` that logs and moves on. -/
def process_channel_boundary (ch : ChannelEnv) : ChannelReport :=
  if channelRaises ch then .unknownFailureLogged
  else .completed (process_monthly_channel ch)

/-- The channel loop of `process_qc_level`: every channel of the catalog is
attempted in order, each behind its own exception boundary. -/
def processChannels (chs : List ChannelEnv) : List ChannelReport :=
  chs.map process_channel_boundary

/-- Environment for one qc-level: whether `parse_aims_xml` on the level's
RSS url succeeds, and the channels the catalog lists. -/
structure QcEnv where
  catalog_ok : Bool
  channels : List ChannelEnv

/-- `process_qc_level` (anmn_nrs_aims.py lines 224-241): a failing catalog
fetch logs `RSS feed not available` and calls `exit(1)`, modelled as
`Except.error 1` (the `SystemExit` propagates to the top level); otherwise
every channel is processed behind its boundary. -/
def process_qc_level (env : QcEnv) : Except Nat (List ChannelReport) :=
  if env.catalog_ok then .ok (processChannels env.channels) else .error 1

/-- Top-level events of the `__main__` driver, in execution order.
`selfTestRun` is the `AimsDataValidationTest` unittest run: its `setUp`
contacts the remote feed (`parse_aims_xml` on the level-1 RSS url and
`download_channel` of channel 84329) and the test compares the transformed
file's md5 against the hard-coded constant. `backlogAbort` is the
`len(os.listdir(ANMN_NRS_INCOMING_DIR)) >= 200` early exit. `qcLevelRun n`
is the call `process_qc_level(n)`. -/
inductive MainEvent where
  | selfTestRun
  | backlogAbort
  | qcLevelRun (n : Nat)
  deriving DecidableEq

/-- Result of the `__main__` driver: the ordered trace of top-level events
and the process exit status. -/
structure MainResult where
  trace : List MainEvent
  exitCode : Nat
  deriving DecidableEq

/-- Environment for one whole run: whether the md5 self-test passes
(`res.result.wasSuccessful()`), the number of files already in the
incoming directory, and the two qc-level environments. -/
structure MainEnv where
  selfTestPass : Bool
  incomingCount : Nat
  qc0 : QcEnv
  qc1 : QcEnv

/-- The `__main__` driver (anmn_nrs_aims.py lines 280-299): after the
singleton guard and `set_up`, the data-validation unittest runs (contacting
the feed); then, if the incoming directory holds 200 or more files, the run
warns and exits 0; otherwise, if the self-test succeeded, qc-levels 0 and 1
are processed in order — a catalog failure inside either `exit(1)`s the
whole process — and finally the process exits 0. A failed self-test skips
both qc-levels and still exits 0. -/
def mainRun (env : MainEnv) : MainResult :=
  if 200 ≤ env.incomingCount then
    ⟨[.selfTestRun, .backlogAbort], 0⟩
  else if env.selfTestPass then
    match process_qc_level env.qc0 with
    | .error c => ⟨[.selfTestRun, .qcLevelRun 0], c⟩
    | .ok _ =>
      match process_qc_level env.qc1 with
      | .error c => ⟨[.selfTestRun, .qcLevelRun 0, .qcLevelRun 1], c⟩
      | .ok _ => ⟨[.selfTestRun, .qcLevelRun 0, .qcLevelRun 1], 0⟩
  else ⟨[.selfTestRun], 0⟩

/-- True when the trace contains no qc-level processing at all. -/
def noQcRun (t : List MainEvent) : Bool :=
  t.all (fun ev => match ev with | .qcLevelRun _ => false | _ => true)

/-- Ordering on optional watermarks: `none` (no watermark yet) precedes
everything; stored timestamps compare numerically. -/
def wmLe : Option Nat → Option Nat → Prop
  | none, _ => True
  | some _, none => False
  | some a, some b => a ≤ b

/-- Abort-class chunk environments, following the severity taxonomy:
the download returned no valid zip (TransportFailure), or data was found
but the TIME variable is empty, the transformer failed, the main variable
is uniformly fill-valued, the site is unrecognized, TIME is not monotonic,
the compliance checker failed, or the publish move failed. -/
def chunkAbortCause (e : ChunkEnv) : Bool :=
  !e.download_ok ||
    (!e.no_data_found &&
      (e.time_var_empty || !e.modify_ok || e.only_fill_value || e.site_name_empty ||
        !e.time_monotonic || !e.checker_pass || !e.move_ok))

/-- The artifacts copied to the errors directory are exactly those that
reach the compliance checker and then fail either it or the filename
regex search. -/
def archivedToErrors (e : ChunkEnv) : Bool :=
  e.download_ok && !e.no_data_found && !e.time_var_empty && e.modify_ok &&
    !e.only_fill_value && !e.site_name_empty && e.time_monotonic &&
    (!e.checker_pass || !e.regex_pass)

/-- A chunk whose download succeeds with data but whose TIME variable is
empty (validation gate: non-empty time series fails). -/
def envTimeVarEmpty : ChunkEnv :=
  ⟨true, false, true, true, false, false, true, true, true, true⟩

/-- A chunk whose main variable holds only fill values (that gate fails);
every other check would pass. -/
def envFillFails : ChunkEnv :=
  ⟨true, false, false, true, true, false, true, true, true, true⟩

/-- A chunk whose TIME values are not strictly monotonic; every other
check would pass. -/
def envMonotonicFails : ChunkEnv :=
  ⟨true, false, false, true, false, false, false, true, true, true⟩

/-- A chunk failing only the CF/IMOS compliance checker. -/
def envComplianceFails : ChunkEnv :=
  ⟨true, false, false, true, false, false, true, false, true, true⟩

/-- A chunk passing the compliance checker whose fixed filename fails the
`IMOS_ANMN_[A-Z]\x7b1\x7d_` regex search. -/
def envRegexFails : ChunkEnv :=
  ⟨true, false, false, true, false, false, true, true, false, true⟩

/-- A chunk whose download returns no valid zip file (TransportFailure). -/
def envTransportFail : ChunkEnv :=
  ⟨false, false, false, true, false, false, true, true, true, true⟩

/-- A chunk for which the service reports no data in the range. -/
def envNoData : ChunkEnv :=
  ⟨true, true, false, true, false, false, true, true, true, true⟩

/-- A channel whose processing raises an unclassified exception. -/
def faultyChannel : ChannelEnv := ⟨[], none, true⟩

/-- A qc-level whose catalog fetch succeeds and lists one faulty channel. -/
def qcEnvOk : QcEnv := ⟨true, [faultyChannel]⟩

/-- A run in which the self-test passes, the incoming directory is empty,
and qc-level 0's catalog fetch fails while qc-level 1's would succeed. -/
def envCatalogFailQc0 : MainEnv := ⟨true, 0, ⟨false, []⟩, ⟨true, []⟩⟩

/-- A run in which the incoming directory already holds 201 files. -/
def envBacklogFull : MainEnv := ⟨true, 201, ⟨true, []⟩, ⟨true, []⟩⟩

/-- A run in which the md5 data-validation self-test fails. -/
def envSelfTestFails : MainEnv := ⟨false, 0, ⟨true, []⟩, ⟨true, []⟩⟩

/-- A chunk with download data and the no-data marker reaches
`save_channel_info` and continues the loop. -/
lemma nodata_advanced (e : ChunkEnv) (h1 : e.download_ok = true)
    (h2 : e.no_data_found = true) :
    (process_monthly_chunk e).outcome = ChunkOutcome.advanced := by
  simp [process_monthly_chunk, h1, h2]

/-- Any abort-class cause prevents the chunk from reaching a continuing
outcome. -/
lemma abortCause_not_advanced (e : ChunkEnv) (h : chunkAbortCause e = true) :
    (process_monthly_chunk e).outcome ≠ ChunkOutcome.advanced := by
  revert h
  rcases e with ⟨d, nd, tve, mo, fv, se, tm, cp, rp, mv⟩
  cases d <;> cases nd <;> cases tve <;> cases mo <;> cases fv <;> cases se <;>
    cases tm <;> cases cp <;> cases rp <;> cases mv <;> decide

/-- A chunk iteration that does not reach `save_channel_info` stops the
chunk loop: the watermark stays as last persisted and later chunks are not
attempted. -/
lemma chunkLoop_cons_stop (e : ChunkEnv) (d : Nat) (rest : List (ChunkEnv × Nat))
    (wm : Option Nat) (h : (process_monthly_chunk e).outcome ≠ ChunkOutcome.advanced) :
    chunkLoop ((e, d) :: rest) wm = (wm, [process_monthly_chunk e]) := by
  cases hout : (process_monthly_chunk e).outcome with
  | advanced => exact absurd hout h
  | channelAborted => simp [chunkLoop, hout]
  | exceptionRaised => simp [chunkLoop, hout]

/-- A chunk iteration that reaches `save_channel_info` persists the
chunk's end date and the loop continues with the remaining chunks. -/
lemma chunkLoop_cons_continue (e : ChunkEnv) (d : Nat) (rest : List (ChunkEnv × Nat))
    (wm : Option Nat) (h : (process_monthly_chunk e).outcome = ChunkOutcome.advanced) :
    chunkLoop ((e, d) :: rest) wm =
      ((chunkLoop rest (some (save_channel_info wm d))).1,
       process_monthly_chunk e :: (chunkLoop rest (some (save_channel_info wm d))).2) := by
  simp [chunkLoop, h]

lemma wmLe_rfl : ∀ wm : Option Nat, wmLe wm wm
  | none => trivial
  | some _ => Nat.le_refl _

lemma wmLe_trans : ∀ {a b c : Option Nat}, wmLe a b → wmLe b c → wmLe a c
  | none, _, _, _, _ => trivial
  | some _, none, _, h, _ => h.elim
  | some _, some _, none, _, h => h.elim
  | some _, some _, some _, h1, h2 => Nat.le_trans h1 h2

/-- Persisting an end date never moves the stored watermark backwards. -/
lemma wmLe_save (wm : Option Nat) (d : Nat) :
    wmLe wm (some (save_channel_info wm d)) := by
  cases wm with
  | none => trivial
  | some w => exact Nat.le_max_left w d

/-- The chunk loop never regresses the watermark. -/
lemma chunkLoop_wm_mono :
    ∀ (chunks : List (ChunkEnv × Nat)) (wm : Option Nat),
      wmLe wm (chunkLoop chunks wm).1 := by
  intro chunks
  induction chunks with
  | nil => intro wm; exact wmLe_rfl wm
  | cons p rest ih =>
    intro wm
    obtain ⟨e, d⟩ := p
    cases hout : (process_monthly_chunk e).outcome with
    | advanced =>
      rw [chunkLoop_cons_continue e d rest wm hout]
      exact wmLe_trans (wmLe_save wm d) (ih (some (save_channel_info wm d)))
    | channelAborted =>
      rw [chunkLoop_cons_stop e d rest wm (by simp [hout])]
      exact wmLe_rfl wm
    | exceptionRaised =>
      rw [chunkLoop_cons_stop e d rest wm (by simp [hout])]
      exact wmLe_rfl wm

/-- A chunk that passes every check up to and including the compliance
checker but whose fixed filename fails the regex search is copied to the
errors directory and breaks the loop. -/
lemma regex_fail_chunk (e : ChunkEnv) (h1 : e.download_ok = true)
    (h2 : e.no_data_found = false) (h3 : e.time_var_empty = false)
    (h4 : e.modify_ok = true) (h5 : e.only_fill_value = false)
    (h6 : e.site_name_empty = false) (h7 : e.time_monotonic = true)
    (h8 : e.checker_pass = true) (h9 : e.regex_pass = false) :
    (process_monthly_chunk e).copiedToErrors = true ∧
      (process_monthly_chunk e).outcome = ChunkOutcome.channelAborted ∧
      Step.fixFilenames ∈ (process_monthly_chunk e).trace ∧
      Step.checkRegex ∈ (process_monthly_chunk e).trace := by
  simp [process_monthly_chunk, h1, h2, h3, h4, h5, h6, h7, h8, h9]

/-- Claim C2 (counterexample): the claim says the five validation gates all
run after the Transformer, in the order non-empty time series, monotonic
time, fill-value, site identity, compliance. In the code, a chunk whose
TIME variable is empty fails the non-empty-time-series gate
(`is_time_var_empty`) before `modify_anmn_nrs_netcdf` ever runs: its trace
contains the gate but no transform step. Moreover a chunk failing the
fill-value gate never had its monotonic-time gate evaluated, although the
claim places the monotonic-time gate (gate 2) before the fill-value gate
(gate 3). -/
theorem c2_counterexample :
    (Step.checkTimeVarEmpty ∈ (process_monthly_chunk envTimeVarEmpty).trace ∧
      Step.transform ∉ (process_monthly_chunk envTimeVarEmpty).trace) ∧
    (Step.checkFillValue ∈ (process_monthly_chunk envFillFails).trace ∧
      Step.checkTimeMonotonic ∉ (process_monthly_chunk envFillFails).trace) := by
  decide

/-- Claim C2 (amended): for every chunk the stages run in the order
download, no-data check, non-empty-time-series gate, Transformer,
fill-value gate, site-identity gate, monotonic-time gate, compliance gate,
filename fixes, filename-regex gate, publish, watermark save — the trace is
always a prefix of that order, so the pipeline short-circuits at the first
failing stage and no later stage is evaluated — except that a no-data chunk
skips from the no-data check straight to the watermark save. In particular
the non-empty-time-series gate runs before the Transformer, and the
monotonic-time gate runs after the fill-value and site-identity gates. -/
theorem c2_stage_order :
    ∀ e : ChunkEnv,
      (process_monthly_chunk e).trace =
          [Step.download, Step.checkNoDataFound, Step.saveChannelInfo] ∨
        ((process_monthly_chunk e).trace.isPrefixOf stageOrder) = true := by
  intro e
  rcases e with ⟨d, nd, tve, mo, fv, se, tm, cp, rp, mv⟩
  cases d <;> cases nd <;> cases tve <;> cases mo <;> cases fv <;> cases se <;>
    cases tm <;> cases cp <;> cases rp <;> cases mv <;> decide

/-- Claim C3: in a chunk list whose head chunk downloads a no-data marker,
the chunk loop persists that chunk's end date (the new watermark is at
least the chunk's end date) and continues with the remaining chunks of the
same channel in the same run. -/
theorem c3_no_data_benign (e : ChunkEnv) (d : Nat) (rest : List (ChunkEnv × Nat))
    (wm : Option Nat) (h1 : e.download_ok = true) (h2 : e.no_data_found = true) :
    chunkLoop ((e, d) :: rest) wm =
        ((chunkLoop rest (some (save_channel_info wm d))).1,
         process_monthly_chunk e :: (chunkLoop rest (some (save_channel_info wm d))).2) ∧
      d ≤ save_channel_info wm d := by
  refine ⟨chunkLoop_cons_continue e d rest wm (nodata_advanced e h1 h2), ?_⟩
  cases wm with
  | none => exact Nat.le_refl d
  | some w => exact Nat.le_max_right w d

/-- Claim C3 (witness): a concrete no-data chunk followed by another chunk;
the loop recurses into the tail with the watermark raised to the chunk's
end date 7. -/
theorem c3_witness :
    chunkLoop [(envNoData, 7), (envNoData, 9)] (some 3) =
        ((chunkLoop [(envNoData, 9)] (some (save_channel_info (some 3) 7))).1,
         process_monthly_chunk envNoData ::
           (chunkLoop [(envNoData, 9)] (some (save_channel_info (some 3) 7))).2) ∧
      7 ≤ save_channel_info (some 3) 7 :=
  c3_no_data_benign envNoData 7 [(envNoData, 9)] (some 3) rfl rfl

/-- Claim C4: a chunk with an abort-class outcome — TransportFailure
(no valid zip), EmptyTimeSeries, TransformError, PublishFailure, or any
validation-gate failure — stops the chunk loop: the remaining chunks of
the channel are not attempted and the watermark stays exactly as last
persisted (the failing chunk's end date is not saved, so it is retried
next run); and the channel loop of `process_qc_level` still processes the
channels after the current one. -/
theorem c4_abort_stops_channel (e : ChunkEnv) (d : Nat) (rest : List (ChunkEnv × Nat))
    (wm : Option Nat) (ch : ChannelEnv) (chs : List ChannelEnv)
    (h : chunkAbortCause e = true) :
    chunkLoop ((e, d) :: rest) wm = (wm, [process_monthly_chunk e]) ∧
      processChannels (ch :: chs) = process_channel_boundary ch :: processChannels chs :=
  ⟨chunkLoop_cons_stop e d rest wm (abortCause_not_advanced e h), rfl⟩

/-- Claim C4 (witness): a concrete transport-failing chunk with a pending
second chunk; the loop stops with the watermark untouched and the next
channel is still processed. -/
theorem c4_witness :
    chunkLoop [(envTransportFail, 7), (envNoData, 9)] (some 3) =
        (some 3, [process_monthly_chunk envTransportFail]) ∧
      processChannels (faultyChannel :: []) =
        process_channel_boundary faultyChannel :: processChannels [] :=
  c4_abort_stops_channel envTransportFail 7 [(envNoData, 9)] (some 3)
    faultyChannel [] (by decide)

/-- Claim C5: the ProgressStore advance operation (`save_channel_info`,
modelled from the spec) is monotonic — advancing with a timestamp earlier
than the stored value is a no-op — and consequently over any run the chunk
loop never regresses the persisted watermark of a (channel, qc-level). -/
theorem c5_watermark_monotonic :
    (∀ w t, t < w → save_channel_info (some w) t = w) ∧
      ∀ (chunks : List (ChunkEnv × Nat)) (wm : Option Nat),
        wmLe wm (chunkLoop chunks wm).1 := by
  constructor
  · intro w t h
    simp [save_channel_info, Nat.max_eq_left (Nat.le_of_lt h)]
  · exact chunkLoop_wm_mono

/-- Claim C5 (witness): advancing a stored watermark of 9 with the earlier
timestamp 4 leaves it at 9, and a concrete run never regresses a stored
watermark of 3. -/
theorem c5_witness :
    save_channel_info (some 9) 4 = 9 ∧
      wmLe (some 3) (chunkLoop [(envNoData, 7)] (some 3)).1 :=
  ⟨c5_watermark_monotonic.1 9 4 (by decide),
   c5_watermark_monotonic.2 [(envNoData, 7)] (some 3)⟩

/-- Claim C7 (counterexample): the claim says every artifact failing any
validation gate is archived into the errors directory. In the code, a
chunk failing the monotonic-time gate aborts the channel but its artifact
is deleted (`shutil.rmtree`), not copied to the errors directory. -/
theorem c7_counterexample :
    (process_monthly_chunk envMonotonicFails).outcome = ChunkOutcome.channelAborted ∧
      Step.checkTimeMonotonic ∈ (process_monthly_chunk envMonotonicFails).trace ∧
      (process_monthly_chunk envMonotonicFails).copiedToErrors = false := by
  decide

/-- Claim C7 (amended): an artifact is copied into the errors directory
exactly when it reaches the compliance checker and then fails either the
compliance check or the subsequent filename-regex check; artifacts failing
the earlier gates (empty time series, transform, fill-value, site
identity, monotonic time) are deleted without archiving. Whenever an
artifact is archived, the channel is aborted. -/
theorem c7_errors_archive :
    ∀ e : ChunkEnv,
      (process_monthly_chunk e).copiedToErrors = archivedToErrors e ∧
        (archivedToErrors e = true →
          (process_monthly_chunk e).outcome = ChunkOutcome.channelAborted) := by
  intro e
  rcases e with ⟨d, nd, tve, mo, fv, se, tm, cp, rp, mv⟩
  cases d <;> cases nd <;> cases tve <;> cases mo <;> cases fv <;> cases se <;>
    cases tm <;> cases cp <;> cases rp <;> cases mv <;> exact ⟨by decide, by decide⟩

/-- Claim C7 (witness): a concrete compliance-check failure is archived,
and its channel is aborted. -/
theorem c7_witness :
    (process_monthly_chunk envComplianceFails).copiedToErrors =
        archivedToErrors envComplianceFails ∧
      (process_monthly_chunk envComplianceFails).outcome = ChunkOutcome.channelAborted :=
  ⟨(c7_errors_archive envComplianceFails).1,
   (c7_errors_archive envComplianceFails).2 (by decide)⟩

/-- Claim C10: an artifact that passed the compliance check but whose
filename, after the data-code and provider-code fixes, fails the
`IMOS_ANMN_[A-Z]\x7b1\x7d_` regex search is copied to the errors
directory, the channel's remaining chunks are aborted, and the watermark
is not advanced for that chunk. -/
theorem c10_regex_gate (e : ChunkEnv) (d : Nat) (rest : List (ChunkEnv × Nat))
    (wm : Option Nat) (h1 : e.download_ok = true) (h2 : e.no_data_found = false)
    (h3 : e.time_var_empty = false) (h4 : e.modify_ok = true)
    (h5 : e.only_fill_value = false) (h6 : e.site_name_empty = false)
    (h7 : e.time_monotonic = true) (h8 : e.checker_pass = true)
    (h9 : e.regex_pass = false) :
    (process_monthly_chunk e).copiedToErrors = true ∧
      Step.fixFilenames ∈ (process_monthly_chunk e).trace ∧
      Step.checkRegex ∈ (process_monthly_chunk e).trace ∧
      chunkLoop ((e, d) :: rest) wm = (wm, [process_monthly_chunk e]) := by
  obtain ⟨ha, hb, hc, hd⟩ := regex_fail_chunk e h1 h2 h3 h4 h5 h6 h7 h8 h9
  exact ⟨ha, hc, hd, chunkLoop_cons_stop e d rest wm (by simp [hb])⟩

/-- Claim C10 (witness): a concrete regex-failing chunk with a pending
second chunk; the artifact is archived and the loop stops with the
watermark untouched. -/
theorem c10_witness :
    (process_monthly_chunk envRegexFails).copiedToErrors = true ∧
      Step.fixFilenames ∈ (process_monthly_chunk envRegexFails).trace ∧
      Step.checkRegex ∈ (process_monthly_chunk envRegexFails).trace ∧
      chunkLoop [(envRegexFails, 7), (envNoData, 9)] (some 3) =
        (some 3, [process_monthly_chunk envRegexFails]) :=
  c10_regex_gate envRegexFails 7 [(envNoData, 9)] (some 3)
    rfl rfl rfl rfl rfl rfl rfl rfl rfl

/-- Claim C1 (counterexample): the claim says a catalog failure aborts only
that qc-level and never terminates the whole process. In the code,
`process_qc_level` calls `exit(1)` when `parse_aims_xml` fails, and the
`__main__` driver calls `process_qc_level(0)` and `process_qc_level(1)`
with no exception handling, so a level-0 catalog failure terminates the
process with status 1 and level 1 is never attempted: in a concrete run
with a failing level-0 catalog, qc-level 1 does not appear in the trace
and the exit status is 1, not 0. -/
theorem c1_counterexample :
    MainEvent.qcLevelRun 1 ∉ (mainRun envCatalogFailQc0).trace ∧
      (mainRun envCatalogFailQc0).exitCode = 1 := by
  decide

/-- Claim C1 (amended): a CatalogUnavailable failure (the per-qc-level
catalog fetch being unreachable or unparsable) terminates the whole
process with exit status 1; qc-levels after the failing one are not
attempted. Concretely, in a run that reaches the qc-level loop, a level-0
catalog failure ends the run right there, and a level-1 catalog failure
ends it after level 0 completed. -/
theorem c1_catalog_failure_fatal (env : MainEnv)
    (hcount : env.incomingCount < 200) (hpass : env.selfTestPass = true) :
    (env.qc0.catalog_ok = false →
        mainRun env = ⟨[MainEvent.selfTestRun, MainEvent.qcLevelRun 0], 1⟩) ∧
      (env.qc0.catalog_ok = true → env.qc1.catalog_ok = false →
        mainRun env =
          ⟨[MainEvent.selfTestRun, MainEvent.qcLevelRun 0, MainEvent.qcLevelRun 1], 1⟩) := by
  constructor
  · intro h0
    simp [mainRun, Nat.not_le.mpr hcount, hpass, process_qc_level, h0]
  · intro h0 h1
    simp [mainRun, Nat.not_le.mpr hcount, hpass, process_qc_level, h0, h1]

/-- Claim C1 (witness): the concrete run with a failing level-0 catalog
ends with only level 0 attempted and exit status 1. -/
theorem c1_witness :
    mainRun envCatalogFailQc0 = ⟨[MainEvent.selfTestRun, MainEvent.qcLevelRun 0], 1⟩ :=
  (c1_catalog_failure_fatal envCatalogFailQc0 (by decide) rfl).1 rfl

/-- Claim C6 (counterexample): the claim says a run with a full incoming
directory aborts before making any contact with the remote feed. In the
code, the `AimsDataValidationTest` unittest runs before the backlog check,
and its `setUp` contacts the feed (`parse_aims_xml` and `download_channel`
of channel 84329): in a concrete run with 201 pending files the run does
abort, but the trace shows the feed-contacting self-test already ran
before the abort. -/
theorem c6_counterexample :
    (mainRun envBacklogFull).trace = [MainEvent.selfTestRun, MainEvent.backlogAbort] ∧
      MainEvent.selfTestRun ∈ (mainRun envBacklogFull).trace := by
  decide

/-- Claim C6 (amended): a run in which the incoming directory already
holds at least 200 pending files aborts (with exit status 0) before any
qc-level is processed — so before any channel harvesting contacts the
feed — but only after the data-validation self-test, which itself contacts
the remote feed, has run. -/
theorem c6_backlog_abort (env : MainEnv) (h : 200 ≤ env.incomingCount) :
    mainRun env = ⟨[MainEvent.selfTestRun, MainEvent.backlogAbort], 0⟩ := by
  simp [mainRun, h]

/-- Claim C6 (witness): the concrete run with 201 pending files aborts
right after the self-test with exit status 0. -/
theorem c6_witness :
    mainRun envBacklogFull = ⟨[MainEvent.selfTestRun, MainEvent.backlogAbort], 0⟩ :=
  c6_backlog_abort envBacklogFull (by decide)

/-- Claim C8: when the catalog fetch succeeds, `process_qc_level`
processes every channel of the catalog — one report per channel, each
produced by the per-channel boundary independently of the other channels —
and any channel whose processing raises an exception is caught at the
boundary and logged as an unknown failure, so a fault in one channel never
prevents the remaining channels of the qc-level from being processed. -/
theorem c8_channel_isolation (env : QcEnv) (h : env.catalog_ok = true) :
    process_qc_level env = Except.ok (processChannels env.channels) ∧
      (processChannels env.channels).length = env.channels.length ∧
      ∀ ch : ChannelEnv, channelRaises ch = true →
        process_channel_boundary ch = ChannelReport.unknownFailureLogged := by
  refine ⟨by simp [process_qc_level, h], by simp [processChannels], ?_⟩
  intro ch hch
  simp [process_channel_boundary, hch]

/-- Claim C8 (witness): a concrete qc-level with one faulty channel is
fully processed, and the faulty channel's exception is absorbed and
logged. -/
theorem c8_witness :
    process_qc_level qcEnvOk = Except.ok (processChannels qcEnvOk.channels) ∧
      (processChannels qcEnvOk.channels).length = qcEnvOk.channels.length ∧
      process_channel_boundary faultyChannel = ChannelReport.unknownFailureLogged := by
  obtain ⟨a, b, c⟩ := c8_channel_isolation qcEnvOk rfl
  exact ⟨a, b, c faultyChannel rfl⟩

/-- Claim C9: on every startup the data-validation self-test (which
downloads channel 84329 from the live feed and compares the transformed
file's md5 against a hard-coded constant) is the first top-level event,
before any qc-level is processed; and if the comparison fails, no qc-level
is processed at all — hence no channel downloads and no watermark change —
while the process still exits with status 0. -/
theorem c9_self_test_gate (env : MainEnv) :
    (mainRun env).trace.head? = some MainEvent.selfTestRun ∧
      (env.selfTestPass = false →
        noQcRun (mainRun env).trace = true ∧ (mainRun env).exitCode = 0) := by
  by_cases hc : 200 ≤ env.incomingCount
  · rw [show mainRun env = ⟨[.selfTestRun, .backlogAbort], 0⟩ from by simp [mainRun, hc]]
    exact ⟨rfl, fun _ => ⟨rfl, rfl⟩⟩
  · by_cases hp : env.selfTestPass
    · constructor
      · cases h0 : process_qc_level env.qc0 with
        | error c => simp [mainRun, hc, hp, h0]
        | ok l =>
          cases h1 : process_qc_level env.qc1 with
          | error c => simp [mainRun, hc, hp, h0, h1]
          | ok l1 => simp [mainRun, hc, hp, h0, h1]
      · intro hf
        exact absurd hf (by simp [hp])
    · have hp' : env.selfTestPass = false := by simpa using hp
      rw [show mainRun env = ⟨[.selfTestRun], 0⟩ from by simp [mainRun, hc, hp']]
      exact ⟨rfl, fun _ => ⟨rfl, rfl⟩⟩

/-- Claim C9 (witness): in the concrete run whose md5 comparison fails,
the self-test is still the first event, no qc-level runs, and the exit
status is 0. -/
theorem c9_witness :
    (mainRun envSelfTestFails).trace.head? = some MainEvent.selfTestRun ∧
      noQcRun (mainRun envSelfTestFails).trace = true ∧
      (mainRun envSelfTestFails).exitCode = 0 :=
  ⟨(c9_self_test_gate envSelfTestFails).1,
   ((c9_self_test_gate envSelfTestFails).2 rfl).1,
   ((c9_self_test_gate envSelfTestFails).2 rfl).2⟩

end AnmnNrsAims
